import Mathlib

/-!
# Verification of the student-performance scoring core

Shallow embedding of the scoring/feature-weighting pipeline of the
clis-cognitive-insights-engine repository:

* the v1 mock scorer (`mockMLPrediction`, PredictionForm v1.0),
* the v2 enhanced scorer (`enhancedMLPrediction`, PredictionForm v2.0-enhanced),
* the v3 real-data scorer's aggregator (`enhancedMLPrediction`, v3.0-real-data-enhanced),
* the v6 Supabase-enhanced scorer (`enhancedMLPrediction`, StudentAnalyticsForm,
  v6.0-supabase-enhanced) together with its `handleStudentSelect` normalizer,
* the edge function's local fallback (`generateLocalPrediction`) and the
  remote/local dispatch in `supabase/functions/ml-prediction/index.ts`.

Numeric inputs are modelled as exact rationals (every JavaScript number is a
rational); the score aggregators additionally use `Real.log` and `Real.rpow`
for the source's `Math.log` / `Math.pow` calls, so they produce real numbers.
All confidence formulas are plain rational arithmetic and are computed in `ℚ`.
JavaScript truthiness on optional numeric fields (`x || d` yielding `d` for
`undefined`, `0` and `NaN`) is modelled by `jsOrQ`; an unparseable `parseFloat`
result (`NaN`) is folded into the `none` case.
-/

/-- Risk tier enum: the three string constants `'low' | 'medium' | 'high'`. -/
inductive Risk where
  | low
  | medium
  | high
deriving DecidableEq, Repr

/-- Which backend produced a dispatched prediction (`backend_source` tag). -/
inductive Source where
  | colab
  | fallback
deriving DecidableEq, Repr

/-- The predictor's input: one field per canonical feature name.  The v1/v2/v3
form state only populates the first seven sliders; the remaining fields carry
the StudentAnalyticsForm defaults and are simply ignored by those variants. -/
structure FeatureSet where
  age : ℚ
  studytime : ℚ
  g1 : ℚ
  g2 : ℚ
  absences : ℚ
  effort_score : ℚ
  emotional_sentiment : ℚ
  participation_index : ℚ
  family_support : ℚ
  health_score : ℚ
  social_activity : ℚ
  alcohol_consumption : ℚ
  attendance_rate : ℚ
  motivation_level : ℚ
  stress_level : ℚ
deriving DecidableEq, Repr

/-- A backing database record (the `Student` row).  Every field is optional,
mirroring the TypeScript interface.  `G1` is stored as a string in the schema
and always read through `parseFloat`; we model the parsed value directly, with
`none` covering both a missing field and an unparseable string (whose `NaN`
is falsy, exactly like a missing field, everywhere the code uses it). -/
structure Student where
  age : Option ℚ
  studytime : Option ℚ
  absences : Option ℚ
  G1 : Option ℚ
  G2 : Option ℚ
  G3 : Option ℚ
  Fedu : Option ℚ
  Medu : Option ℚ
  famrel : Option ℚ
  goout : Option ℚ
  Dalc : Option ℚ
  Walc : Option ℚ
  health : Option ℚ
deriving DecidableEq, Repr

/-- The predictor's output (numeric fields as reals, since the aggregators use
`Math.log`/`Math.pow`). -/
structure PredictionResult where
  predicted_score : ℝ
  confidence_level : ℝ
  risk_level : Risk
  intervention_summary : String

/-- JavaScript `x || d` for an optional numeric `x`: `undefined`, `0` (and
`NaN`, folded into `none`) are falsy and fall through to the default. -/
def jsOrQ : Option ℚ → ℚ → ℚ
  | some x, d => if x = 0 then d else x
  | none, d => d

/-- JavaScript `x || d` for a numeric `x` that is already present. -/
def jsOrNum (x d : ℚ) : ℚ := if x = 0 then d else x

/-- JavaScript `x < c` where `x` may be `undefined`: `undefined < c` is false. -/
def jsLt (x : Option ℚ) (c : ℚ) : Bool :=
  match x with
  | some v => decide (v < c)
  | none => false

/-- JavaScript `Math.round (x * 100) / 100`, the 2-decimal presentation
rounding used on `predicted_score` and `confidence_level`
(`Math.round` is floor of `x + 1/2`). -/
def round2 {α : Type} [LinearOrderedField α] [FloorRing α] (x : α) : α :=
  (⌊x * 100 + 1 / 2⌋ : α) / 100

/-- JavaScript `Math.round x` (used on the fallback's confidence). -/
def jsRound {α : Type} [LinearOrderedField α] [FloorRing α] (x : α) : α :=
  (⌊x + 1 / 2⌋ : α)

theorem round2_mono {α : Type} [LinearOrderedField α] [FloorRing α]
    {x y : α} (h : x ≤ y) : round2 x ≤ round2 y := by
  unfold round2
  have : ⌊x * 100 + 1 / 2⌋ ≤ ⌊y * 100 + 1 / 2⌋ := by
    apply Int.floor_le_floor
    nlinarith
  have h100 : (0 : α) ≤ 100 := by norm_num
  exact div_le_div_of_nonneg_right (by exact_mod_cast this) h100

theorem floor_int_add_half {α : Type} [LinearOrderedField α] [FloorRing α]
    (n : ℤ) : ⌊(n : α) + 1 / 2⌋ = n := by
  rw [add_comm, Int.floor_add_int]
  have h : ⌊(1 / 2 : α)⌋ = 0 := by
    rw [Int.floor_eq_zero_iff, Set.mem_Ico]
    constructor <;> norm_num
  rw [h, zero_add]

theorem round2_le {α : Type} [LinearOrderedField α] [FloorRing α]
    {x : α} {n : ℤ} (h : x ≤ n) : round2 x ≤ n := by
  unfold round2
  have hle : ⌊x * 100 + 1 / 2⌋ ≤ ⌊((n : α) * 100 + 1 / 2)⌋ := by
    apply Int.floor_le_floor; nlinarith
  have hn : ⌊((n : α) * 100 + 1 / 2)⌋ = n * 100 := by
    have : ((n : α) * 100) = ((n * 100 : ℤ) : α) := by push_cast; ring
    rw [this, floor_int_add_half]
  rw [hn] at hle
  have h100 : (0 : α) ≤ 100 := by norm_num
  calc (⌊x * 100 + 1 / 2⌋ : α) / 100 ≤ ((n * 100 : ℤ) : α) / 100 := by
        apply div_le_div_of_nonneg_right (by exact_mod_cast hle) h100
    _ = n := by push_cast; ring

theorem le_round2 {α : Type} [LinearOrderedField α] [FloorRing α]
    {x : α} {n : ℤ} (h : (n : α) ≤ x) : (n : α) ≤ round2 x := by
  unfold round2
  have hle : ⌊((n : α) * 100 + 1 / 2)⌋ ≤ ⌊x * 100 + 1 / 2⌋ := by
    apply Int.floor_le_floor; nlinarith
  have hn : ⌊((n : α) * 100 + 1 / 2)⌋ = n * 100 := by
    have : ((n : α) * 100) = ((n * 100 : ℤ) : α) := by push_cast; ring
    rw [this, floor_int_add_half]
  rw [hn] at hle
  have h100 : (0 : α) ≤ 100 := by norm_num
  calc (n : α) = ((n * 100 : ℤ) : α) / 100 := by push_cast; ring
    _ ≤ (⌊x * 100 + 1 / 2⌋ : α) / 100 := by
        apply div_le_div_of_nonneg_right (by exact_mod_cast hle) h100

theorem jsRound_le {α : Type} [LinearOrderedField α] [FloorRing α]
    {x : α} {n : ℤ} (h : x ≤ n) : jsRound x ≤ n := by
  unfold jsRound
  have hle : ⌊x + 1 / 2⌋ ≤ ⌊((n : α) + 1 / 2)⌋ := by
    apply Int.floor_le_floor; linarith
  rw [floor_int_add_half] at hle
  exact_mod_cast hle

theorem le_jsRound {α : Type} [LinearOrderedField α] [FloorRing α]
    {x : α} {n : ℤ} (h : (n : α) ≤ x) : (n : α) ≤ jsRound x := by
  unfold jsRound
  have hle : ⌊((n : α) + 1 / 2)⌋ ≤ ⌊x + 1 / 2⌋ := by
    apply Int.floor_le_floor; linarith
  rw [floor_int_add_half] at hle
  exact_mod_cast hle

/-- Interventions list of the v1 mock scorer's `generateInterventionSummary`
(the `score` argument of the source is unused by its body and omitted). -/
def mockInterventions (d : FeatureSet) : List String :=
  (if d.studytime < 3 then ["Increase study time allocation"] else []) ++
  (if d.absences > 5 then ["Address attendance issues"] else []) ++
  (if d.effort_score < 6 then ["Motivational support needed"] else []) ++
  (if d.participation_index < 6 then ["Encourage class participation"] else []) ++
  (if d.emotional_sentiment < 0.4 then ["Emotional support recommended"] else [])

/-- `generateInterventionSummary` of the v1 mock variant. -/
def generateInterventionSummary (d : FeatureSet) (risk : Risk) : String :=
  let interventions := mockInterventions d
  if interventions = [] then
    "Student is performing well. Continue current approach."
  else
    "Recommended interventions: " ++ String.intercalate ", " interventions ++ ". " ++
      (if risk = Risk.high then "Immediate attention required." else "Monitor progress closely.")

/-- Raw weighted score of the v1 mock scorer (all terms rational). -/
def mockWeightedScore (d : FeatureSet) : ℚ :=
  d.g1 * 0.3 + d.g2 * 0.35 + d.studytime * 1.2 + d.effort_score * 0.8 +
    d.participation_index * 0.6 + (10 - d.absences) * 0.4 + d.emotional_sentiment * 5

/-- The v1 mock risk thresholds (`< 10` high, `< 14` medium, else low). -/
def mockRisk (score : ℚ) : Risk :=
  if score < 10 then Risk.high else if score < 14 then Risk.medium else Risk.low

/-- `mockMLPrediction` (PredictionForm v1.0).  The source obtains its
confidence from `Math.random () * 30 + 70`; the random draw `r` (the value of
`Math.random ()`, in `[0, 1)`) is made an explicit parameter. -/
def mockMLPrediction (d : FeatureSet) (r : ℚ) : PredictionResult :=
  let predicted : ℚ := max 0 (min 20 (mockWeightedScore d))
  let confidence : ℚ := r * 30 + 70
  let risk := mockRisk predicted
  { predicted_score := ((round2 predicted : ℚ) : ℝ)
    confidence_level := ((round2 confidence : ℚ) : ℝ)
    risk_level := risk
    intervention_summary := generateInterventionSummary d risk }

/-- Interventions list of the edge function's `generateFallbackIntervention`. -/
def fallbackInterventions (d : FeatureSet) : List String :=
  (if d.studytime < 3 then ["Increase study time"] else []) ++
  (if d.attendance_rate < 80 then ["Improve attendance"] else []) ++
  (if d.effort_score < 6 then ["Motivational support needed"] else []) ++
  (if d.stress_level > 0.7 then ["Stress management required"] else []) ++
  (if d.emotional_sentiment < 0.4 then ["Emotional support needed"] else [])

/-- `generateFallbackIntervention` of the edge function (its `score` parameter
is unused by the body and omitted here). -/
def generateFallbackIntervention (d : FeatureSet) : String :=
  let interventions := fallbackInterventions d
  if interventions = [] then
    "Student performing well. Continue current approach."
  else
    "Recommended interventions: " ++ String.intercalate ", " interventions ++ "."

/-- The local fallback's risk thresholds (`< 8` high, `< 12` medium, else low),
applied to the pre-rounding clamped score. -/
noncomputable def riskFromScoreLocal (score : ℝ) : Risk :=
  if score < 8 then Risk.high else if score < 12 then Risk.medium else Risk.low

/-- Raw term sum of `generateLocalPrediction` (edge function fallback), written
as the flat sum of its seven named factors. -/
noncomputable def localTermSum (d : FeatureSet) : ℝ :=
  ((d.g1 : ℝ) * 0.3 + (d.g2 : ℝ) * 0.4) + Real.log ((d.studytime : ℝ) + 1) * 2.5 +
    ((d.attendance_rate : ℝ) / 100) * 3 + (d.effort_score : ℝ) * 0.8 +
    (d.emotional_sentiment : ℝ) * 4 + (d.motivation_level : ℝ) * 0.5 +
    (d.stress_level : ℝ) * (-2)

/-- `generateLocalPrediction` of `supabase/functions/ml-prediction/index.ts`
(model_version `local-fallback-v2.0`). -/
noncomputable def generateLocalPrediction (d : FeatureSet) : PredictionResult :=
  let predicted : ℝ := max 0 (min 20 (localTermSum d))
  let confidence : ℚ := min 95 (70 + d.participation_index * 2)
  { predicted_score := round2 predicted
    confidence_level := ((jsRound confidence : ℚ) : ℝ)
    risk_level := riskFromScoreLocal predicted
    intervention_summary := generateFallbackIntervention d }

/-- The parsed JSON body the remote Colab `/predict` endpoint may return; each
field is optional. -/
structure ColabResult where
  predicted_score : Option ℚ
  prediction : Option ℚ
  confidence : Option ℚ
  risk_level : Option Risk
  intervention : Option String
deriving DecidableEq, Repr

/-- Outcome of the remote call: a parsed 2xx body, or any failure
(non-2xx status, timeout, network error, unparseable body). -/
inductive RemoteOutcome where
  | ok (cr : ColabResult)
  | failed
deriving DecidableEq, Repr

/-- The dispatched prediction record assembled by the edge function's `serve`
handler.  `predicted_score` is optional because on the remote path the source
writes `colabResult.predicted_score || colabResult.prediction`, which is
`undefined` when both fields are absent. -/
structure ServePrediction where
  predicted_score : Option ℝ
  confidence_level : ℝ
  risk_level : Risk
  intervention_summary : String
  backend_source : Source

/-- JavaScript `a || b` on two optional numbers (`0` and `undefined` falsy). -/
def jsOrOpt (a b : Option ℚ) : Option ℚ :=
  match a with
  | some x => if x = 0 then b else some x
  | none => b

/-- JavaScript `s || d` on an optional string (`""` and `undefined` falsy). -/
def jsOrStr : Option String → String → String
  | some s, d => if s = "" then d else s
  | none, d => d

/-- The success branch of the dispatch (`response.ok`): field-by-field mapping
of the parsed Colab body into the prediction record (index.ts lines 88-95).
The risk fallback reads `colabResult.predicted_score` (not the
score-or-prediction alternative) and compares with JS semantics, where
`undefined < c` is false. -/
def serveSuccessPrediction (d : FeatureSet) (cr : ColabResult) : ServePrediction :=
  { predicted_score := (jsOrOpt cr.predicted_score cr.prediction).map (fun q => (q : ℝ))
    confidence_level := ((jsOrQ cr.confidence 85 : ℚ) : ℝ)
    risk_level :=
      match cr.risk_level with
      | some r => r
      | none =>
          if jsLt cr.predicted_score 10 then Risk.high
          else if jsLt cr.predicted_score 14 then Risk.medium
          else Risk.low
    intervention_summary := jsOrStr cr.intervention (generateFallbackIntervention d)
    backend_source := Source.colab }

/-- The remote/local dispatch of the `serve` handler: a parseable 2xx response
is mapped via `serveSuccessPrediction`; any failure falls back to
`generateLocalPrediction` tagged `fallback`. -/
noncomputable def dispatchPrediction (d : FeatureSet) : RemoteOutcome → ServePrediction
  | RemoteOutcome.ok cr => serveSuccessPrediction d cr
  | RemoteOutcome.failed =>
      let p := generateLocalPrediction d
      { predicted_score := some p.predicted_score
        confidence_level := p.confidence_level
        risk_level := p.risk_level
        intervention_summary := p.intervention_summary
        backend_source := Source.fallback }

/-- Average variance proxy of the v2 enhanced confidence calculation: the mean
of the four per-feature instability measures (part_000, v2.0-enhanced). -/
def avgVarV2 (d : FeatureSet) : ℚ :=
  (|d.g2 - d.g1| + d.absences + |d.emotional_sentiment - 0.5| * 2 +
      |d.effort_score - 7.5| / 7.5) / 4

/-- Confidence of the v2 enhanced scorer (before the 2-decimal rounding). -/
def confV2 (d : FeatureSet) : ℚ :=
  let base_confidence := max 65 (95 - avgVarV2 d * 8)
  min 98 (base_confidence + d.participation_index * 2)

/-- Risk chain of the v2 enhanced scorer, applied to the pre-rounding clamped
score: thresholds plus the absences / sentiment override conditions. -/
noncomputable def riskV2 (score : ℝ) (d : FeatureSet) : Risk :=
  if score < 8 then Risk.high
  else if score < 12 then Risk.medium
  else if d.absences > 8 then Risk.medium
  else if d.emotional_sentiment < 0.3 then Risk.medium
  else Risk.low

/-- Interventions list of `generateAdvancedIntervention` (v2 variant).  Each
source `if`/`else if` pair has mutually exclusive guards, so pushes are
written as independent appends. -/
def advInterventionsV2 (d : FeatureSet) : List String :=
  (if d.studytime < 3 then ["📚 Implement structured study schedule with 30-45 min focused sessions"] else []) ++
  (if d.absences > 5 then ["🏫 Address attendance patterns - consider flexible scheduling or support"] else []) ++
  (if d.effort_score < 6 then ["💪 Motivational coaching and goal-setting sessions needed"] else []) ++
  (if d.participation_index < 6 then ["🗣️ Encourage active participation through smaller group activities"] else []) ++
  (if d.emotional_sentiment < 0.4 then ["🧠 Emotional support and stress management resources recommended"] else []) ++
  (if d.g2 < d.g1 then ["📈 Focus on recent learning gaps - review G2 topics comprehensively"] else [])

/-- Strengths list of `generateAdvancedIntervention` (v2 variant). -/
def advStrengthsV2 (d : FeatureSet) : List String :=
  (if 7 < d.studytime then ["Strong study time commitment"] else []) ++
  (if d.absences < 2 then ["Excellent attendance record"] else []) ++
  (if 8 < d.effort_score then ["High effort and motivation levels"] else []) ++
  (if 8 < d.participation_index then ["Active class participant"] else []) ++
  (if 0.7 < d.emotional_sentiment then ["Positive emotional state"] else []) ++
  (if d.g1 < d.g2 then ["Showing academic improvement"] else [])

/-- `generateAdvancedIntervention` of the v2 enhanced variant (its unused
`score` argument is omitted). -/
def generateAdvancedInterventionV2 (d : FeatureSet) (risk : Risk) : String :=
  let interventions := advInterventionsV2 d
  let strengths := advStrengthsV2 d
  (if strengths = [] then "" else "Strengths: " ++ String.intercalate ", " strengths ++ ". ") ++
    (if interventions = [] then
      "Student is performing well across all metrics. Continue current approach with minor optimizations."
    else
      "Recommended interventions: " ++ String.intercalate "; " interventions ++ ". " ++
        (match risk with
         | Risk.high => "⚠️ HIGH PRIORITY - Immediate intervention required."
         | Risk.medium => "⚡ Monitor progress closely and implement changes within 2 weeks."
         | Risk.low => ""))

/-- Raw term sum of the v2 enhanced scorer, as a flat sum: six weighted
factors, the grade-trend adjustment and the emotion-effort synergy. -/
noncomputable def v2TermSum (d : FeatureSet) : ℝ :=
  ((d.g1 : ℝ) * 0.25 + (d.g2 : ℝ) * 0.35) + Real.log ((d.studytime : ℝ) + 1) * 2.5 +
    max 0 ((20 - (d.absences : ℝ)) * 0.4) + (d.emotional_sentiment : ℝ) * 8 +
    ((d.effort_score : ℝ) / 10) ^ (1.5 : ℝ) * 6 + (d.participation_index : ℝ) * 0.7 +
    (if d.g1 < d.g2 then (1.5 : ℝ) else if d.g2 < d.g1 then -1.0 else 0) +
    (d.emotional_sentiment : ℝ) * (d.effort_score : ℝ) * 0.3

/-- `enhancedMLPrediction` of PredictionForm v2.0-enhanced (part_000).  The
score accumulates the weighted factors, the trend bonus/penalty and the
synergy term, then is clamped by `Math.max (2, Math.min (20, s))`. -/
noncomputable def enhancedMLPredictionV2 (d : FeatureSet) : PredictionResult :=
  let academicWeight : ℝ := (d.g1 : ℝ) * 0.25 + (d.g2 : ℝ) * 0.35
  let studyEffort : ℝ := Real.log ((d.studytime : ℝ) + 1) * 2.5
  let attendanceImpact : ℝ := max 0 ((20 - (d.absences : ℝ)) * 0.4)
  let emotionalFactor : ℝ := (d.emotional_sentiment : ℝ) * 8
  let effortBonus : ℝ := ((d.effort_score : ℝ) / 10) ^ (1.5 : ℝ) * 6
  let participationBonus : ℝ := (d.participation_index : ℝ) * 0.7
  let base := academicWeight + studyEffort + attendanceImpact + emotionalFactor +
    effortBonus + participationBonus
  let withTrend := if d.g1 < d.g2 then base + 1.5 else if d.g2 < d.g1 then base - 1.0 else base
  let withSynergy := withTrend + (d.emotional_sentiment : ℝ) * (d.effort_score : ℝ) * 0.3
  let predicted : ℝ := max 2 (min 20 withSynergy)
  let risk := riskV2 predicted d
  { predicted_score := round2 predicted
    confidence_level := ((round2 (confV2 d) : ℚ) : ℝ)
    risk_level := risk
    intervention_summary := generateAdvancedInterventionV2 d risk }

/-- Historical academic base of the v3 real-data scorer: zero without a
backing record, else the weighted G1/G2/G3 history (`x || 0` reads). -/
def v3AcademicBase : Option Student → ℚ
  | some st => jsOrQ st.G1 0 * 0.2 + jsOrQ st.G2 0 * 0.3 + jsOrQ st.G3 0 * 0.15
  | none => 0

/-- Demographic/family/social bonus of the v3 real-data scorer. -/
def v3DemographicBonus : Option Student → ℚ
  | some st =>
      (match st.age with
       | some a => if 15 ≤ a ∧ a ≤ 18 then 1.0 else 0
       | none => 0) +
      ((jsOrQ st.Fedu 0 + jsOrQ st.Medu 0) / 2) * 0.3 +
      jsOrQ st.famrel 0 * 0.2 + jsOrQ st.health 0 * 0.1 +
      max 0 (5 - |jsOrQ st.goout 0 - 3|) * 0.2
  | none => 0

/-- Raw term sum of the v3 real-data scorer (part_001,
`v3.0-real-data-enhanced`): the v2-style weighted factors with shifted grade
weights, the real-data academic base and demographic bonus, the trend
adjustment and the synergy term. -/
noncomputable def v3TermSum (sd : Option Student) (d : FeatureSet) : ℝ :=
  ((v3AcademicBase sd : ℝ) + ((d.g1 : ℝ) * 0.15 + (d.g2 : ℝ) * 0.20)) +
    Real.log ((d.studytime : ℝ) + 1) * 2.5 + max 0 ((20 - (d.absences : ℝ)) * 0.4) +
    (d.emotional_sentiment : ℝ) * 8 + ((d.effort_score : ℝ) / 10) ^ (1.5 : ℝ) * 6 +
    (d.participation_index : ℝ) * 0.7 + (v3DemographicBonus sd : ℝ) +
    (if d.g1 < d.g2 then (1.5 : ℝ) else if d.g2 < d.g1 then -1.0 else 0) +
    (d.emotional_sentiment : ℝ) * (d.effort_score : ℝ) * 0.3

/-- Clamped, rounded predicted score of the v3 real-data scorer
(`Math.max (2, Math.min (20, s))`, then 2-decimal rounding). -/
noncomputable def v3PredictedScore (sd : Option Student) (d : FeatureSet) : ℝ :=
  round2 (max 2 (min 20 (v3TermSum sd d)))

/-- Truthy-and-low G2 override of the v6 risk chain:
`studentData?.G2 && studentData.G2 < 10` (a stored `0` is falsy). -/
def sdG2Low : Option Student → Bool
  | some st =>
      match st.G2 with
      | some g => decide (g ≠ 0) && decide (g < 10)
      | none => false
  | none => false

/-- Elevated-alcohol override of the v6 risk chain:
`studentData && (studentData.Dalc || 0) + (studentData.Walc || 0) > 6`. -/
def sdAlcoholHigh : Option Student → Bool
  | some st => decide (jsOrQ st.Dalc 0 + jsOrQ st.Walc 0 > 6)
  | none => false

/-- Risk chain of the v6 Supabase-enhanced scorer (StudentAnalyticsForm):
score thresholds first, then the four override conditions in source order. -/
noncomputable def riskV6 (score : ℝ) (d : FeatureSet) (sd : Option Student) : Risk :=
  if score < 8 then Risk.high
  else if score < 12 then Risk.medium
  else if d.absences > 8 then Risk.medium
  else if d.emotional_sentiment < 0.3 then Risk.medium
  else if sdG2Low sd then Risk.medium
  else if sdAlcoholHigh sd then Risk.medium
  else Risk.low

/-- Average variance proxy of the v6 confidence calculation; `realData` is the
source's `useRealData && studentData` conjunction (the fifth instability
factor is `0` with a backing record and `4` without). -/
def avgVarV6 (realData : Bool) (d : FeatureSet) : ℚ :=
  (|d.g2 - d.g1| + d.absences / 5 + |d.emotional_sentiment - 0.5| * 2 +
      |d.effort_score - 7.5| / 7.5 + (if realData then 0 else 4)) / 5

/-- Confidence of the v6 Supabase-enhanced scorer (before rounding): base 95
with a backing record, 80 without, minus six times the variance proxy, plus
the participation boost, capped at 99 — with no lower cap. -/
def confV6 (realData : Bool) (d : FeatureSet) : ℚ :=
  let base_confidence : ℚ := if realData then 95 else 80
  min 99 (base_confidence - avgVarV6 realData d * 6 + d.participation_index * 1.2)

/-- Real-data academic base of the v6 scorer (`g3Score || g2Score` falls back
to G2 when G3 is zero or absent). -/
def v6AcademicBase : Option Student → ℚ
  | some st =>
      jsOrQ st.G1 0 * 0.25 + jsOrQ st.G2 0 * 0.35 +
        jsOrNum (jsOrQ st.G3 0) (jsOrQ st.G2 0) * 0.20
  | none => 0

/-- Real-data demographic factor of the v6 scorer (age in the 15-18 band). -/
def v6DemographicFactors : Option Student → ℚ
  | some st =>
      match st.age with
      | some a => if 15 ≤ a ∧ a ≤ 18 then 1.5 else 0
      | none => 0
  | none => 0

/-- Real-data family factor of the v6 scorer. -/
def v6FamilyFactors : Option Student → ℚ
  | some st =>
      ((jsOrQ st.Fedu 0 + jsOrQ st.Medu 0) / 2) * 0.6 +
        jsOrQ st.famrel 0 * 0.4 + jsOrQ st.health 0 * 0.3
  | none => 0

/-- Real-data social factor of the v6 scorer (social balance minus alcohol). -/
def v6SocialFactors : Option Student → ℚ
  | some st =>
      max 0 (5 - |jsOrQ st.goout 0 - 3|) * 0.4 +
        (-(jsOrQ st.Dalc 0 + jsOrQ st.Walc 0) * 0.15)
  | none => 0

/-- Raw term sum of the v6 Supabase-enhanced scorer as a flat sum.  The four
real-data factors and the flat `realDataBonus = 2.0` are active exactly when
`useRealData && studentData` holds (`realSd` is `sd` under that guard). -/
noncomputable def v6TermSum (realSd : Option Student) (d : FeatureSet) : ℝ :=
  ((v6AcademicBase realSd : ℝ) + ((d.g1 : ℝ) * 0.15 + (d.g2 : ℝ) * 0.20)) +
    Real.log ((d.studytime : ℝ) + 1) * 3.0 + ((d.attendance_rate : ℝ) / 100) * 4.0 +
    (d.emotional_sentiment : ℝ) * 6 + ((d.effort_score : ℝ) / 10) ^ (1.5 : ℝ) * 5 +
    (d.participation_index : ℝ) * 0.6 + (v6DemographicFactors realSd : ℝ) +
    (v6FamilyFactors realSd : ℝ) + (v6SocialFactors realSd : ℝ) +
    (if realSd.isSome then (2.0 : ℝ) else 0) +
    (d.motivation_level : ℝ) * 0.4 + (-((d.stress_level : ℝ) * 3)) +
    (if d.g1 < d.g2 then (2.0 : ℝ) else if d.g2 < d.g1 then -1.5 else 0) +
    (d.emotional_sentiment : ℝ) * (d.effort_score : ℝ) * 0.4

/-- Real-data insight interventions of the v6
`generateAdvancedIntervention` (pushed first, under `studentData && isRealData`;
the truthiness guards exclude stored zeros). -/
def v6RealDataInterventions : Option Student → List String
  | some st =>
      ["🎯 Analysis based on REAL Supabase database record"] ++
      (match st.health with
       | some h => if h ≠ 0 ∧ h < 3 then ["🏥 Address health concerns documented in student record"] else []
       | none => []) ++
      (match st.Fedu, st.Medu with
       | some f, some m =>
          if f ≠ 0 ∧ m ≠ 0 ∧ f + m < 4 then
            ["👨‍👩‍👧‍👦 Provide additional academic support to compensate for limited family educational background"]
          else []
       | _, _ => [])
  | none => []

/-- Real-data insight strengths of the v6 `generateAdvancedIntervention`. -/
def v6RealDataStrengths : Option Student → List String
  | some st =>
      (match st.G3 with
       | some g => if g ≠ 0 ∧ 15 < g then ["Strong historical final performance in database"] else []
       | none => []) ++
      (match st.famrel with
       | some f => if f ≠ 0 ∧ 4 ≤ f then ["Good family support system (verified in database)"] else []
       | none => [])
  | none => []

/-- Interventions list of the v6 `generateAdvancedIntervention`; `realSd` is
the backing record under the `studentData && isRealData` guard. -/
def advInterventionsV6 (realSd : Option Student) (d : FeatureSet) : List String :=
  v6RealDataInterventions realSd ++
  (if d.studytime < 3 then ["📚 Implement structured study schedule with 45-60 min focused sessions"] else []) ++
  (if d.attendance_rate < 80 then ["🏫 Critical: Address attendance issues immediately - consider support services"] else []) ++
  (if d.effort_score < 6 then ["💪 Urgent: Motivational coaching and personalized goal-setting sessions"] else []) ++
  (if d.participation_index < 6 then ["🗣️ Encourage active participation through smaller group activities and confidence building"] else []) ++
  (if d.emotional_sentiment < 0.4 then ["🧠 Priority: Emotional support and comprehensive stress management resources"] else []) ++
  (if d.stress_level > 0.7 then ["😰 High stress levels detected - implement relaxation techniques and workload management"] else []) ++
  (if d.motivation_level < 5 then ["🎯 Focus on intrinsic motivation through personalized learning goals"] else []) ++
  (if d.g2 < d.g1 then ["📈 Urgent: Address recent academic decline - comprehensive review of G2 topics"] else [])

/-- Strengths list of the v6 `generateAdvancedIntervention`. -/
def advStrengthsV6 (realSd : Option Student) (d : FeatureSet) : List String :=
  v6RealDataStrengths realSd ++
  (if 7 < d.studytime then ["Excellent study time commitment"] else []) ++
  (if 95 < d.attendance_rate then ["Outstanding attendance record"] else []) ++
  (if 8 < d.effort_score then ["High effort and motivation levels"] else []) ++
  (if 8 < d.participation_index then ["Active and engaged class participant"] else []) ++
  (if 0.7 < d.emotional_sentiment then ["Positive emotional state and well-being"] else []) ++
  (if d.g1 < d.g2 then ["Positive academic improvement trend"] else [])

/-- `generateAdvancedIntervention` of the v6 variant (unused `score` argument
omitted; `realSd` is the record under the `isRealData && studentData` guard). -/
def generateAdvancedInterventionV6 (realSd : Option Student) (d : FeatureSet)
    (risk : Risk) : String :=
  let interventions := advInterventionsV6 realSd d
  let strengths := advStrengthsV6 realSd d
  (if realSd.isSome then "🎯 ANALYSIS BASED ON REAL SUPABASE DATABASE RECORD. " else "") ++
    (if strengths = [] then "" else "Strengths: " ++ String.intercalate ", " strengths ++ ". ") ++
    (if interventions = [] then
      "Student is performing excellently across all metrics. Continue current approach with minor optimizations."
    else
      "Recommended interventions: " ++ String.intercalate "; " interventions ++ ". " ++
        (match risk with
         | Risk.high => "🚨 HIGH PRIORITY - Immediate comprehensive intervention required within 48 hours."
         | Risk.medium => "⚡ Monitor progress closely and implement targeted changes within 1 week."
         | Risk.low => ""))

/-- `enhancedMLPrediction` of StudentAnalyticsForm (model_version
`v6.0-supabase-enhanced`).  `useRealData` is the component flag; the real-data
factors are active only when it is set and a record is selected. -/
noncomputable def enhancedMLPredictionV6 (useRealData : Bool) (sd : Option Student)
    (d : FeatureSet) : PredictionResult :=
  let realSd : Option Student := if useRealData then sd else none
  let predicted : ℝ := max 2 (min 20 (v6TermSum realSd d))
  let risk := riskV6 predicted d sd
  { predicted_score := round2 predicted
    confidence_level := ((round2 (confV6 (useRealData && sd.isSome) d) : ℚ) : ℝ)
    risk_level := risk
    intervention_summary := generateAdvancedInterventionV6 realSd d risk }

/-- `handleStudentSelect` of StudentAnalyticsForm: merge a selected database
record into the current form state.  Every overlapping field is read through
JavaScript `||`, so a stored `0` falls back to the same default as a missing
field; `attendance_rate` and `alcohol_consumption` are derived. -/
def handleStudentSelectForm (student : Student) (prev : FeatureSet) : FeatureSet :=
  { prev with
    age := jsOrQ student.age 16
    studytime := jsOrQ student.studytime 2
    g1 := jsOrQ student.G1 10
    g2 := jsOrQ student.G2 12
    absences := jsOrQ student.absences 3
    family_support := jsOrQ student.famrel 3
    health_score := jsOrQ student.health 4
    social_activity := jsOrQ student.goout 3
    alcohol_consumption := jsOrNum ((jsOrQ student.Dalc 0 + jsOrQ student.Walc 0) / 2) 1
    attendance_rate := max 0 (100 - jsOrQ student.absences 0 * 3) }

/-- The StudentAnalyticsForm's default form state (also the v1-v3 defaults on
the shared seven sliders), used as the running example input. -/
def exampleFeatures : FeatureSet :=
  { age := 16, studytime := 2, g1 := 10, g2 := 12, absences := 3, effort_score := 7.5,
    emotional_sentiment := 0.6, participation_index := 8.2, family_support := 3,
    health_score := 4, social_activity := 3, alcohol_consumption := 1,
    attendance_rate := 85, motivation_level := 7, stress_level := 0.4 }

/-- The documented input ranges of the FeatureSet fields (data model §3 and
the form slider bounds). -/
def InDocumentedRanges (d : FeatureSet) : Prop :=
  15 ≤ d.age ∧ d.age ≤ 22 ∧
  1 ≤ d.studytime ∧ d.studytime ≤ 15 ∧
  0 ≤ d.g1 ∧ d.g1 ≤ 20 ∧ 0 ≤ d.g2 ∧ d.g2 ≤ 20 ∧
  0 ≤ d.absences ∧ d.absences ≤ 25 ∧
  1 ≤ d.effort_score ∧ d.effort_score ≤ 10 ∧
  0 ≤ d.emotional_sentiment ∧ d.emotional_sentiment ≤ 1 ∧
  1 ≤ d.participation_index ∧ d.participation_index ≤ 10 ∧
  1 ≤ d.family_support ∧ d.family_support ≤ 5 ∧
  1 ≤ d.health_score ∧ d.health_score ≤ 5 ∧
  1 ≤ d.social_activity ∧ d.social_activity ≤ 5 ∧
  0 ≤ d.alcohol_consumption ∧ d.alcohol_consumption ≤ 5 ∧
  0 ≤ d.attendance_rate ∧ d.attendance_rate ≤ 100 ∧
  1 ≤ d.motivation_level ∧ d.motivation_level ≤ 10 ∧
  0 ≤ d.stress_level ∧ d.stress_level ≤ 1

instance (d : FeatureSet) : Decidable (InDocumentedRanges d) := by
  unfold InDocumentedRanges; infer_instance

/-- The output ranges claimed for every variant: score in [0, 20] and
confidence in [0, 100]. -/
def scoreConfInBounds (p : PredictionResult) : Prop :=
  0 ≤ p.predicted_score ∧ p.predicted_score ≤ 20 ∧
    0 ≤ p.confidence_level ∧ p.confidence_level ≤ 100

theorem mockMLPrediction_score_eq (d : FeatureSet) (r : ℚ) :
    (mockMLPrediction d r).predicted_score =
      ((round2 (max 0 (min 20 (mockWeightedScore d))) : ℚ) : ℝ) := rfl

theorem mockMLPrediction_conf_eq (d : FeatureSet) (r : ℚ) :
    (mockMLPrediction d r).confidence_level = ((round2 (r * 30 + 70) : ℚ) : ℝ) := rfl

theorem generateLocalPrediction_score_eq (d : FeatureSet) :
    (generateLocalPrediction d).predicted_score =
      round2 (max 0 (min 20 (localTermSum d))) := rfl

theorem generateLocalPrediction_conf_eq (d : FeatureSet) :
    (generateLocalPrediction d).confidence_level =
      ((jsRound (min 95 (70 + d.participation_index * 2)) : ℚ) : ℝ) := rfl

theorem enhancedMLPredictionV2_conf_eq (d : FeatureSet) :
    (enhancedMLPredictionV2 d).confidence_level = ((round2 (confV2 d) : ℚ) : ℝ) := rfl

theorem enhancedMLPredictionV2_score_eq (d : FeatureSet) :
    (enhancedMLPredictionV2 d).predicted_score = round2 (max 2 (min 20 (v2TermSum d))) := by
  simp only [enhancedMLPredictionV2]
  apply congrArg (fun s : ℝ => round2 (max 2 (min 20 s)))
  unfold v2TermSum
  split_ifs <;> ring

theorem enhancedMLPredictionV6_score_eq (u : Bool) (sd : Option Student) (d : FeatureSet) :
    (enhancedMLPredictionV6 u sd d).predicted_score =
      round2 (max 2 (min 20 (v6TermSum (if u then sd else none) d))) := rfl

theorem enhancedMLPredictionV6_conf_eq (u : Bool) (sd : Option Student) (d : FeatureSet) :
    (enhancedMLPredictionV6 u sd d).confidence_level =
      ((round2 (confV6 (u && sd.isSome) d) : ℚ) : ℝ) := rfl

theorem round2_clamp0_mem {α : Type} [LinearOrderedField α] [FloorRing α] (s : α) :
    0 ≤ round2 (max 0 (min 20 s)) ∧ round2 (max 0 (min 20 s)) ≤ 20 := by
  constructor
  · have h := le_round2 (α := α) (n := 0) (x := max 0 (min 20 s)) (by
      simp only [Int.cast_zero]
      exact le_max_left (0 : α) (min 20 s))
    simpa using h
  · have harg : max (0 : α) (min 20 s) ≤ ((20 : ℤ) : α) := by
      have := min_le_left (20 : α) s
      have := max_le (show (0 : α) ≤ 20 by norm_num) this
      exact_mod_cast this
    have h := round2_le harg
    exact_mod_cast h

theorem round2_clamp2_mem {α : Type} [LinearOrderedField α] [FloorRing α] (s : α) :
    0 ≤ round2 (max 2 (min 20 s)) ∧ round2 (max 2 (min 20 s)) ≤ 20 := by
  constructor
  · have h := le_round2 (α := α) (n := 0) (x := max 2 (min 20 s)) (by
      have := le_max_left (2 : α) (min 20 s)
      have h0 : ((0 : ℤ) : α) ≤ 2 := by norm_num
      exact le_trans h0 this)
    simpa using h
  · have harg : max (2 : α) (min 20 s) ≤ ((20 : ℤ) : α) := by
      have := min_le_left (20 : α) s
      have := max_le (show (2 : α) ≤ 20 by norm_num) this
      exact_mod_cast this
    have h := round2_le harg
    exact_mod_cast h

theorem confV2_bounds (d : FeatureSet) (hpar : 1 ≤ d.participation_index) :
    0 ≤ confV2 d ∧ confV2 d ≤ 98 := by
  unfold confV2
  constructor
  · apply le_min (by norm_num)
    have hbase : (65 : ℚ) ≤ max 65 (95 - avgVarV2 d * 8) := le_max_left _ _
    linarith
  · exact min_le_left _ _

theorem confV6_bounds (realData : Bool) (d : FeatureSet)
    (hg1a : 0 ≤ d.g1) (hg1b : d.g1 ≤ 20) (hg2a : 0 ≤ d.g2) (hg2b : d.g2 ≤ 20)
    (_hab1 : 0 ≤ d.absences) (hab2 : d.absences ≤ 25)
    (heff1 : 1 ≤ d.effort_score) (heff2 : d.effort_score ≤ 10)
    (hsen1 : 0 ≤ d.emotional_sentiment) (hsen2 : d.emotional_sentiment ≤ 1)
    (hpar1 : 1 ≤ d.participation_index) :
    0 ≤ confV6 realData d ∧ confV6 realData d ≤ 99 := by
  have h1 : |d.g2 - d.g1| ≤ 20 := abs_le.mpr ⟨by linarith, by linarith⟩
  have h3 : |d.emotional_sentiment - 0.5| ≤ 0.5 := abs_le.mpr ⟨by linarith, by linarith⟩
  have h4 : |d.effort_score - 7.5| ≤ 6.5 := abs_le.mpr ⟨by linarith, by linarith⟩
  have h5 : (if realData then (0 : ℚ) else 4) ≤ 4 := by split <;> norm_num
  have h2 : d.absences / 5 ≤ 5 := by
    have := div_le_div_of_nonneg_right hab2 (show (0 : ℚ) ≤ 5 by norm_num)
    linarith [this]
  have h4q : |d.effort_score - 7.5| / 7.5 ≤ 13 / 15 := by
    have := div_le_div_of_nonneg_right h4 (show (0 : ℚ) ≤ 7.5 by norm_num)
    have he : (6.5 : ℚ) / 7.5 = 13 / 15 := by norm_num
    linarith [this, he.le, he.ge]
  have havg : avgVarV6 realData d ≤ 463 / 75 := by
    unfold avgVarV6
    have hsum : |d.g2 - d.g1| + d.absences / 5 + |d.emotional_sentiment - 0.5| * 2 +
        |d.effort_score - 7.5| / 7.5 + (if realData then (0 : ℚ) else 4) ≤ 463 / 15 := by
      linarith
    have := div_le_div_of_nonneg_right hsum (show (0 : ℚ) ≤ 5 by norm_num)
    have he : (463 : ℚ) / 15 / 5 = 463 / 75 := by norm_num
    linarith [this, he.le, he.ge]
  unfold confV6
  constructor
  · apply le_min (by norm_num)
    have hbase : (80 : ℚ) ≤ (if realData then (95 : ℚ) else 80) := by split <;> norm_num
    linarith
  · exact min_le_left _ _

/-- C1.  For every FeatureSet whose values lie in the documented ranges, every
scoring variant (v1 mock with any random draw `r` in `[0, 1)`, v2 enhanced,
v6 Supabase-enhanced with any backing record, and the edge function's local
fallback) returns a `predicted_score` in [0, 20] and a `confidence_level` in
[0, 100]. -/
theorem claim_C1_score_confidence_in_bounds (d : FeatureSet) (r : ℚ)
    (useRealData : Bool) (sd : Option Student)
    (hd : InDocumentedRanges d) (hr0 : 0 ≤ r) (hr1 : r < 1) :
    scoreConfInBounds (mockMLPrediction d r) ∧
    scoreConfInBounds (enhancedMLPredictionV2 d) ∧
    scoreConfInBounds (enhancedMLPredictionV6 useRealData sd d) ∧
    scoreConfInBounds (generateLocalPrediction d) := by
  obtain ⟨hage1, hage2, hst1, hst2, hg1a, hg1b, hg2a, hg2b, hab1, hab2, heff1, heff2,
    hsen1, hsen2, hpar1, hpar2, hfam1, hfam2, hhea1, hhea2, hsoc1, hsoc2, halc1, halc2,
    hatt1, hatt2, hmot1, hmot2, hstr1, hstr2⟩ := hd
  refine ⟨?_, ?_, ?_, ?_⟩
  · -- v1 mock
    have hs := round2_clamp0_mem (α := ℚ) (mockWeightedScore d)
    have hc0 : (0 : ℚ) ≤ round2 (r * 30 + 70) := by
      have h := le_round2 (α := ℚ) (n := 0) (x := r * 30 + 70) (by push_cast; linarith)
      simpa using h
    have hc1 : round2 (r * 30 + 70) ≤ (100 : ℚ) := by
      have h := round2_le (α := ℚ) (n := 100) (x := r * 30 + 70) (by push_cast; linarith)
      exact_mod_cast h
    exact ⟨by rw [mockMLPrediction_score_eq]; exact_mod_cast hs.1,
      by rw [mockMLPrediction_score_eq]; exact_mod_cast hs.2,
      by rw [mockMLPrediction_conf_eq]; exact_mod_cast hc0,
      by rw [mockMLPrediction_conf_eq]; exact_mod_cast hc1⟩
  · -- v2 enhanced
    have hs := round2_clamp2_mem (α := ℝ) (v2TermSum d)
    have hc := confV2_bounds d hpar1
    have hc0 : (0 : ℚ) ≤ round2 (confV2 d) := by
      have h := le_round2 (α := ℚ) (n := 0) (x := confV2 d) (by exact_mod_cast hc.1)
      simpa using h
    have hc1 : round2 (confV2 d) ≤ (100 : ℚ) := by
      have h := round2_le (α := ℚ) (n := 100) (x := confV2 d) (by push_cast; linarith [hc.2])
      exact_mod_cast h
    exact ⟨by rw [enhancedMLPredictionV2_score_eq]; exact hs.1,
      by rw [enhancedMLPredictionV2_score_eq]; exact hs.2,
      by rw [enhancedMLPredictionV2_conf_eq]; exact_mod_cast hc0,
      by rw [enhancedMLPredictionV2_conf_eq]; exact_mod_cast hc1⟩
  · -- v6 Supabase-enhanced
    have hs := round2_clamp2_mem (α := ℝ) (v6TermSum (if useRealData then sd else none) d)
    have hc := confV6_bounds (useRealData && sd.isSome) d hg1a hg1b hg2a hg2b hab1 hab2
      heff1 heff2 hsen1 hsen2 hpar1
    have hc0 : (0 : ℚ) ≤ round2 (confV6 (useRealData && sd.isSome) d) := by
      have h := le_round2 (α := ℚ) (n := 0) (x := confV6 (useRealData && sd.isSome) d)
        (by exact_mod_cast hc.1)
      simpa using h
    have hc1 : round2 (confV6 (useRealData && sd.isSome) d) ≤ (100 : ℚ) := by
      have h := round2_le (α := ℚ) (n := 100) (x := confV6 (useRealData && sd.isSome) d)
        (by push_cast; linarith [hc.2])
      exact_mod_cast h
    exact ⟨by rw [enhancedMLPredictionV6_score_eq]; exact hs.1,
      by rw [enhancedMLPredictionV6_score_eq]; exact hs.2,
      by rw [enhancedMLPredictionV6_conf_eq]; exact_mod_cast hc0,
      by rw [enhancedMLPredictionV6_conf_eq]; exact_mod_cast hc1⟩
  · -- local fallback
    have hs := round2_clamp0_mem (α := ℝ) (localTermSum d)
    have hraw0 : (0 : ℚ) ≤ min 95 (70 + d.participation_index * 2) :=
      le_min (by norm_num) (by linarith)
    have hraw1 : min 95 (70 + d.participation_index * 2) ≤ (95 : ℚ) := min_le_left _ _
    have hc0 : (0 : ℚ) ≤ jsRound (min 95 (70 + d.participation_index * 2)) := by
      have h := le_jsRound (α := ℚ) (n := 0) (by exact_mod_cast hraw0)
      simpa using h
    have hc1 : jsRound (min 95 (70 + d.participation_index * 2)) ≤ (100 : ℚ) := by
      have h := jsRound_le (α := ℚ) (n := 100)
        (x := min 95 (70 + d.participation_index * 2)) (by push_cast; linarith)
      exact_mod_cast h
    exact ⟨by rw [generateLocalPrediction_score_eq]; exact hs.1,
      by rw [generateLocalPrediction_score_eq]; exact hs.2,
      by rw [generateLocalPrediction_conf_eq]; exact_mod_cast hc0,
      by rw [generateLocalPrediction_conf_eq]; exact_mod_cast hc1⟩

/-- An integer-valued in-range input, used as the concrete witness input
(kernel-decidable comparisons). -/
def witnessFeatures : FeatureSet :=
  { age := 16, studytime := 2, g1 := 10, g2 := 12, absences := 3, effort_score := 7,
    emotional_sentiment := 1, participation_index := 8, family_support := 3,
    health_score := 4, social_activity := 3, alcohol_consumption := 1,
    attendance_rate := 85, motivation_level := 7, stress_level := 0 }

/-- Witness for C1 at a concrete in-range input, random draw 0, no record. -/
theorem claim_C1_score_confidence_in_bounds_witness :
    InDocumentedRanges witnessFeatures ∧ (0 : ℚ) ≤ 0 ∧ (0 : ℚ) < 1 ∧
      (scoreConfInBounds (mockMLPrediction witnessFeatures 0) ∧
       scoreConfInBounds (enhancedMLPredictionV2 witnessFeatures) ∧
       scoreConfInBounds (enhancedMLPredictionV6 false none witnessFeatures) ∧
       scoreConfInBounds (generateLocalPrediction witnessFeatures)) :=
  ⟨by decide, by decide, by decide,
    claim_C1_score_confidence_in_bounds witnessFeatures 0 false none
      (by decide) (by decide) (by decide)⟩

theorem round2_intCast {α : Type} [LinearOrderedField α] [FloorRing α] (n : ℤ) :
    round2 ((n : α)) = (n : α) := by
  unfold round2
  have h : ((n : α) * 100) = ((n * 100 : ℤ) : α) := by push_cast; ring
  rw [h, floor_int_add_half]
  push_cast; ring

/-- A degenerate input whose raw term sums are negative (below the lower
clamps of every aggregator): the trend penalty dominates in the enhanced
variants, the stress penalty in the local fallback. -/
def c2Features : FeatureSet :=
  { age := 16, studytime := 0, g1 := 2, g2 := 0, absences := 20, effort_score := 0,
    emotional_sentiment := 0, participation_index := 0, family_support := 0,
    health_score := 0, social_activity := 0, alcohol_consumption := 0,
    attendance_rate := 0, motivation_level := 0, stress_level := 1 }

theorem c2_v2TermSum_value : v2TermSum c2Features = -(1 / 2) := by
  unfold v2TermSum c2Features
  norm_num [Real.zero_rpow]

/-- Counterexample to C2.  At `c2Features` the v2 enhanced term sum is
`-0.5 < 0`; the claim ([0, 20] clamping, sum below 0 gives exactly 0) predicts
a score of 0, but the code's `Math.max (2, Math.min (20, s))` gives 2. -/
theorem claim_C2_counterexample :
    v2TermSum c2Features < 0 ∧
    round2 (max 0 (min 20 (v2TermSum c2Features))) = 0 ∧
    (enhancedMLPredictionV2 c2Features).predicted_score = 2 := by
  have hs := c2_v2TermSum_value
  refine ⟨by rw [hs]; norm_num, ?_, ?_⟩
  · rw [hs]
    have h1 : min (20 : ℝ) (-(1 / 2)) = -(1 / 2) := by norm_num
    have h2 : max (0 : ℝ) (-(1 / 2)) = 0 := by norm_num
    rw [h1, h2]
    have := round2_intCast (α := ℝ) 0
    simpa using this
  · rw [enhancedMLPredictionV2_score_eq, hs]
    have h1 : min (20 : ℝ) (-(1 / 2)) = -(1 / 2) := by norm_num
    have h2 : max (2 : ℝ) (-(1 / 2)) = 2 := by norm_num
    rw [h1, h2]
    have := round2_intCast (α := ℝ) 2
    simpa using this

/-- C2 (amended).  Each aggregator's `predicted_score` is the sum of its
active terms clamped and rounded, the clamp being the sole bounding mechanism;
the local fallback clamps to [0, 20] (a term sum below 0 gives exactly 0),
while the enhanced v2/v3 variants clamp to [2, 20] (a term sum below 2 gives
exactly 2, not 0). -/
theorem claim_C2_clamped_sum (d : FeatureSet) (sd : Option Student) :
    ((generateLocalPrediction d).predicted_score =
      round2 (max 0 (min 20 (localTermSum d)))) ∧
    (localTermSum d < 0 → (generateLocalPrediction d).predicted_score = 0) ∧
    ((enhancedMLPredictionV2 d).predicted_score =
      round2 (max 2 (min 20 (v2TermSum d)))) ∧
    (v2TermSum d < 2 → (enhancedMLPredictionV2 d).predicted_score = 2) ∧
    (v3PredictedScore sd d = round2 (max 2 (min 20 (v3TermSum sd d)))) ∧
    (v3TermSum sd d < 2 → v3PredictedScore sd d = 2) := by
  have hr0 : round2 ((0 : ℝ)) = 0 := by simpa using round2_intCast (α := ℝ) 0
  have hr2 : round2 ((2 : ℝ)) = 2 := by simpa using round2_intCast (α := ℝ) 2
  refine ⟨generateLocalPrediction_score_eq d, ?_, enhancedMLPredictionV2_score_eq d, ?_,
    rfl, ?_⟩
  · intro h
    rw [generateLocalPrediction_score_eq]
    have h1 : min (20 : ℝ) (localTermSum d) = localTermSum d := min_eq_right (by linarith)
    rw [h1, max_eq_left (by linarith), hr0]
  · intro h
    rw [enhancedMLPredictionV2_score_eq]
    have h1 : min (20 : ℝ) (v2TermSum d) = v2TermSum d := min_eq_right (by linarith)
    rw [h1, max_eq_left (by linarith), hr2]
  · intro h
    unfold v3PredictedScore
    have h1 : min (20 : ℝ) (v3TermSum sd d) = v3TermSum sd d := min_eq_right (by linarith)
    rw [h1, max_eq_left (by linarith), hr2]

/-- Witness for C2 (amended) at `c2Features` (no backing record): all three
term sums are below their lower clamps and the scores are exactly the clamps. -/
theorem claim_C2_clamped_sum_witness :
    localTermSum c2Features < 0 ∧ v2TermSum c2Features < 2 ∧
    v3TermSum none c2Features < 2 ∧
    (generateLocalPrediction c2Features).predicted_score = 0 ∧
    (enhancedMLPredictionV2 c2Features).predicted_score = 2 ∧
    v3PredictedScore none c2Features = 2 := by
  have hl : localTermSum c2Features < 0 := by
    unfold localTermSum c2Features; norm_num
  have h2 : v2TermSum c2Features < 2 := by
    unfold v2TermSum c2Features; norm_num [Real.zero_rpow]
  have h3 : v3TermSum none c2Features < 2 := by
    unfold v3TermSum c2Features v3AcademicBase v3DemographicBonus; norm_num [Real.zero_rpow]
  exact ⟨hl, h2, h3, (claim_C2_clamped_sum c2Features none).2.1 hl,
    (claim_C2_clamped_sum c2Features none).2.2.2.1 h2,
    (claim_C2_clamped_sum c2Features none).2.2.2.2.2 h3⟩

/-- Counterexample to C3.  The v1 mock variant's confidence comes from
`Math.random () * 30 + 70`: two calls on the identical FeatureSet that draw
0 and 1/2 (both legal values of `Math.random ()`) return different
`confidence_level`s, so the local pipeline is not deterministic bit-for-bit
in the v1 mock variant. -/
theorem claim_C3_counterexample :
    (0 : ℚ) ≤ 0 ∧ (0 : ℚ) < 1 ∧ (0 : ℚ) ≤ 1 / 2 ∧ (1 / 2 : ℚ) < 1 ∧
      (mockMLPrediction exampleFeatures 0).confidence_level ≠
        (mockMLPrediction exampleFeatures (1 / 2)).confidence_level := by
  refine ⟨le_refl 0, by norm_num, by norm_num, by norm_num, ?_⟩
  rw [mockMLPrediction_conf_eq, mockMLPrediction_conf_eq]
  have h0 : round2 ((0 : ℚ) * 30 + 70) = 70 := by
    have h : ((0 : ℚ) * 30 + 70) = ((70 : ℤ) : ℚ) := by norm_num
    rw [h, round2_intCast]; norm_num
  have h1 : round2 ((1 / 2 : ℚ) * 30 + 70) = 85 := by
    have h : ((1 / 2 : ℚ) * 30 + 70) = ((85 : ℤ) : ℚ) := by norm_num
    rw [h, round2_intCast]; norm_num
  rw [h0, h1]
  norm_num

/-- C3 (amended).  The local pipeline is deterministic in every variant
except for the v1 mock's `confidence_level`: the v2, v6 and local-fallback
variants are pure functions of their inputs, and even the v1 mock's
`predicted_score`, `risk_level` and `intervention_summary` do not depend on
the random draw — only its `confidence_level` does. -/
theorem claim_C3_determinism (d₁ d₂ : FeatureSet) (r s : ℚ) (u : Bool)
    (sd : Option Student) (h : d₁ = d₂) :
    enhancedMLPredictionV2 d₁ = enhancedMLPredictionV2 d₂ ∧
    enhancedMLPredictionV6 u sd d₁ = enhancedMLPredictionV6 u sd d₂ ∧
    generateLocalPrediction d₁ = generateLocalPrediction d₂ ∧
    (mockMLPrediction d₁ r).predicted_score = (mockMLPrediction d₂ s).predicted_score ∧
    (mockMLPrediction d₁ r).risk_level = (mockMLPrediction d₂ s).risk_level ∧
    (mockMLPrediction d₁ r).intervention_summary =
      (mockMLPrediction d₂ s).intervention_summary := by
  subst h
  exact ⟨rfl, rfl, rfl, rfl, rfl, rfl⟩

/-- Witness for C3 (amended) at a concrete input with draws 0 and 1. -/
theorem claim_C3_determinism_witness :
    witnessFeatures = witnessFeatures ∧
      (enhancedMLPredictionV2 witnessFeatures = enhancedMLPredictionV2 witnessFeatures ∧
       enhancedMLPredictionV6 false none witnessFeatures =
         enhancedMLPredictionV6 false none witnessFeatures ∧
       generateLocalPrediction witnessFeatures = generateLocalPrediction witnessFeatures ∧
       (mockMLPrediction witnessFeatures 0).predicted_score =
         (mockMLPrediction witnessFeatures 1).predicted_score ∧
       (mockMLPrediction witnessFeatures 0).risk_level =
         (mockMLPrediction witnessFeatures 1).risk_level ∧
       (mockMLPrediction witnessFeatures 0).intervention_summary =
         (mockMLPrediction witnessFeatures 1).intervention_summary) :=
  ⟨rfl, claim_C3_determinism witnessFeatures witnessFeatures 0 1 false none rfl⟩

/-- The concrete remote response of the C4 counterexample: a 2xx body carrying
only `predicted_score: 9`. -/
def c4Response : ColabResult :=
  { predicted_score := some 9, prediction := none, confidence := none,
    risk_level := none, intervention := none }

/-- Counterexample to C4.  For a remote score of 9 with no `risk_level`, the
dispatch derives `high` (its thresholds are `< 10` / `< 14`), while the local
Risk Classifier of the same file maps 9 to `medium` (thresholds `< 8` / `< 12`)
— so the dispatch does not use the local classifier's thresholds. -/
theorem claim_C4_counterexample :
    (serveSuccessPrediction exampleFeatures c4Response).risk_level = Risk.high ∧
    riskFromScoreLocal ((9 : ℚ) : ℝ) = Risk.medium := by
  constructor
  · simp only [serveSuccessPrediction, c4Response, jsLt]
    norm_num
  · unfold riskFromScoreLocal
    rw [if_neg (by norm_num), if_pos (by norm_num)]

/-- C4 (amended).  On a parseable 2xx response the dispatch maps the
`predicted_score`/`prediction` field into the result, defaults a missing
confidence to the constant 85, derives a missing `risk_level` from the raw
`predicted_score` field via the dispatch's own thresholds (below 10 high,
below 14 medium, else low — a missing score compares false and yields low),
and generates a missing `intervention_summary` locally. -/
theorem claim_C4_success_mapping (d : FeatureSet) (cr : ColabResult) :
    ((serveSuccessPrediction d cr).backend_source = Source.colab) ∧
    (cr.confidence = none → (serveSuccessPrediction d cr).confidence_level = 85) ∧
    (∀ rl, cr.risk_level = some rl → (serveSuccessPrediction d cr).risk_level = rl) ∧
    (∀ p, cr.risk_level = none → cr.predicted_score = some p →
      (serveSuccessPrediction d cr).risk_level =
        (if p < 10 then Risk.high else if p < 14 then Risk.medium else Risk.low)) ∧
    (cr.risk_level = none → cr.predicted_score = none →
      (serveSuccessPrediction d cr).risk_level = Risk.low) ∧
    (cr.intervention = none → (serveSuccessPrediction d cr).intervention_summary =
      generateFallbackIntervention d) ∧
    (∀ p, cr.predicted_score = some p → p ≠ 0 →
      (serveSuccessPrediction d cr).predicted_score = some ((p : ℚ) : ℝ)) ∧
    (∀ q, cr.predicted_score = none → cr.prediction = some q →
      (serveSuccessPrediction d cr).predicted_score = some ((q : ℚ) : ℝ)) := by
  refine ⟨rfl, ?_, ?_, ?_, ?_, ?_, ?_, ?_⟩
  · intro h
    simp [serveSuccessPrediction, jsOrQ, h]
  · intro rl h
    simp [serveSuccessPrediction, h]
  · intro p hrl hps
    simp [serveSuccessPrediction, hrl, hps, jsLt]
  · intro hrl hps
    simp [serveSuccessPrediction, hrl, hps, jsLt]
  · intro h
    simp [serveSuccessPrediction, jsOrStr, h]
  · intro p hps hp0
    simp [serveSuccessPrediction, jsOrOpt, hps, hp0]
  · intro q hps hq
    simp [serveSuccessPrediction, jsOrOpt, hps, hq]

/-- Witness for C4 (amended) at the concrete response `{predicted_score: 9}`. -/
theorem claim_C4_success_mapping_witness :
    c4Response.confidence = none ∧ c4Response.risk_level = none ∧
    c4Response.predicted_score = some 9 ∧ (9 : ℚ) ≠ 0 ∧ c4Response.intervention = none ∧
    (serveSuccessPrediction witnessFeatures c4Response).confidence_level = 85 ∧
    (serveSuccessPrediction witnessFeatures c4Response).risk_level =
      (if (9 : ℚ) < 10 then Risk.high else if (9 : ℚ) < 14 then Risk.medium else Risk.low) ∧
    (serveSuccessPrediction witnessFeatures c4Response).predicted_score =
      some ((9 : ℚ) : ℝ) ∧
    (serveSuccessPrediction witnessFeatures c4Response).intervention_summary =
      generateFallbackIntervention witnessFeatures :=
  ⟨rfl, rfl, rfl, by decide, rfl,
    (claim_C4_success_mapping witnessFeatures c4Response).2.1 rfl,
    (claim_C4_success_mapping witnessFeatures c4Response).2.2.2.1 9 rfl rfl,
    (claim_C4_success_mapping witnessFeatures c4Response).2.2.2.2.2.2.1 9 rfl (by decide),
    (claim_C4_success_mapping witnessFeatures c4Response).2.2.2.2.2.1 rfl⟩

theorem generateFallbackIntervention_ne_empty (d : FeatureSet) :
    generateFallbackIntervention d ≠ "" := by
  simp only [generateFallbackIntervention]
  split
  · decide
  · intro h
    have hlen := congrArg String.length h
    rw [String.length_append, String.length_append] at hlen
    have h1 : ("Recommended interventions: ").length = 27 := by decide
    have h2 : (".").length = 1 := by decide
    simp [h1, h2] at hlen

/-- C8.  When the remote step fails (timeout, network error, non-2xx,
unparseable body), the dispatch still returns a complete PredictionResult
computed by the local fallback pipeline: the fallback tag is set, the score,
confidence and risk come from `generateLocalPrediction`, and the intervention
summary is populated (nonempty); the failure is never surfaced as a scoring
failure. -/
theorem claim_C8_fallback_totality (d : FeatureSet) :
    (dispatchPrediction d RemoteOutcome.failed).backend_source = Source.fallback ∧
    (dispatchPrediction d RemoteOutcome.failed).predicted_score =
      some ((generateLocalPrediction d).predicted_score) ∧
    (dispatchPrediction d RemoteOutcome.failed).risk_level =
      riskFromScoreLocal (max 0 (min 20 (localTermSum d))) ∧
    (dispatchPrediction d RemoteOutcome.failed).intervention_summary ≠ "" := by
  refine ⟨rfl, rfl, rfl, ?_⟩
  exact generateFallbackIntervention_ne_empty d

/-- A 2xx body carrying only a `prediction` value. -/
def predictionOnlyResponse (p : ℚ) : ColabResult :=
  { predicted_score := none, prediction := some p, confidence := none,
    risk_level := none, intervention := none }

/-- C10.  If the 2xx body has a numeric `prediction` but neither
`predicted_score` nor `risk_level`, the dispatch assigns risk `low` no matter
how low the prediction value is (JS `undefined < 10` is false), while the
score is taken from the `prediction` field. -/
theorem claim_C10_prediction_only_low (d : FeatureSet) (p : ℚ) :
    (serveSuccessPrediction d (predictionOnlyResponse p)).risk_level = Risk.low ∧
    (serveSuccessPrediction d (predictionOnlyResponse p)).predicted_score =
      some ((p : ℚ) : ℝ) := by
  constructor
  · simp [serveSuccessPrediction, predictionOnlyResponse, jsLt]
  · simp [serveSuccessPrediction, predictionOnlyResponse, jsOrOpt]

/-- Concrete input for the C5 witness: in range, but with 9 absences. -/
def c5Features : FeatureSet := { witnessFeatures with absences := 9 }

/-- A backing record whose stored second grade is 0 — the lowest possible G2 —
with every other field absent. -/
def c5ZeroStudent : Student :=
  { age := none, studytime := none, absences := none, G1 := none, G2 := some 0,
    G3 := none, Fedu := none, Medu := none, famrel := none, goout := none,
    Dalc := none, Walc := none, health := none }

/-- Counterexample to C5.  A backing record with stored `G2 = 0` — squarely a
"low G2" (it is below 10) — does not escalate: the code's guard
`studentData?.G2 && studentData.G2 < 10` is falsy at 0, so at score 16 with
absences at most 8, sentiment at least 0.3 and no elevated alcohol the
classification stays `low`, contradicting the claim that any single low-G2
backing record suffices for at least `medium`. -/
theorem claim_C5_counterexample :
    c5ZeroStudent.G2 = some 0 ∧ (0 : ℚ) < 10 ∧
    witnessFeatures.absences ≤ 8 ∧ (0.3 : ℚ) ≤ witnessFeatures.emotional_sentiment ∧
    jsOrQ c5ZeroStudent.Dalc 0 + jsOrQ c5ZeroStudent.Walc 0 ≤ 6 ∧
    riskV6 ((16 : ℚ) : ℝ) witnessFeatures (some c5ZeroStudent) = Risk.low := by
  refine ⟨rfl, by norm_num, by decide, by norm_num [witnessFeatures],
    by norm_num [c5ZeroStudent, jsOrQ], ?_⟩
  unfold riskV6
  rw [if_neg (by push_cast; norm_num : ¬(((16 : ℚ) : ℝ) < 8)),
    if_neg (by push_cast; norm_num : ¬(((16 : ℚ) : ℝ) < 12)),
    if_neg (by decide : ¬(witnessFeatures.absences > 8)),
    if_neg (by norm_num [witnessFeatures] : ¬(witnessFeatures.emotional_sentiment < 0.3)),
    if_neg (by norm_num [sdG2Low, c5ZeroStudent] : ¬(sdG2Low (some c5ZeroStudent) = true)),
    if_neg (by norm_num [sdAlcoholHigh, c5ZeroStudent, jsOrQ] :
      ¬(sdAlcoholHigh (some c5ZeroStudent) = true))]

/-- C5 (amended).  In the v6 risk chain, any single override condition as the
code implements it (absences above 8,
sentiment below 0.3, a backing record with a nonzero G2 below 10, or a backing
record with Dalc + Walc above 6) forces the classification away from `low`
(i.e. to at least `medium`) whatever the score, and no override can lower a
score-driven `high` (score below 8 always classifies `high`). -/
theorem claim_C5_override_escalation (s : ℚ) (d : FeatureSet) (sd : Option Student) :
    ((d.absences > 8 ∨ d.emotional_sentiment < 0.3 ∨ sdG2Low sd = true ∨
        sdAlcoholHigh sd = true) → riskV6 ((s : ℚ) : ℝ) d sd ≠ Risk.low) ∧
    (s < 8 → riskV6 ((s : ℚ) : ℝ) d sd = Risk.high) := by
  constructor
  · intro h
    unfold riskV6
    split_ifs with h1 h2 h3 h4 h5 h6
    · simp
    · simp
    · simp
    · simp
    · simp
    · simp
    · rcases h with habs | hsent | hg2 | halc
      · exact absurd habs h3
      · exact absurd hsent h4
      · exact absurd hg2 (by simpa using h5)
      · exact absurd halc (by simpa using h6)
  · intro hs
    unfold riskV6
    rw [if_pos (by exact_mod_cast hs : ((s : ℚ) : ℝ) < 8)]

/-- Witness for C5: score 16 with 9 absences is not `low`; score 7 is `high`. -/
theorem claim_C5_override_escalation_witness :
    (c5Features.absences > 8 ∨ c5Features.emotional_sentiment < 0.3 ∨
      sdG2Low none = true ∨ sdAlcoholHigh none = true) ∧
    riskV6 ((16 : ℚ) : ℝ) c5Features none ≠ Risk.low ∧
    (7 : ℚ) < 8 ∧ riskV6 ((7 : ℚ) : ℝ) c5Features none = Risk.high :=
  ⟨Or.inl (by decide),
    (claim_C5_override_escalation 16 c5Features none).1 (Or.inl (by decide)),
    by decide,
    (claim_C5_override_escalation 7 c5Features none).2 (by decide)⟩

theorem v2TermSum_g2_baseline_le (d : FeatureSet) (x : ℚ) (h : d.g1 ≤ x) :
    v2TermSum { d with g2 := d.g1 } ≤ v2TermSum { d with g2 := x } := by
  rcases eq_or_lt_of_le h with heq | hlt
  · rw [heq]
  · unfold v2TermSum
    dsimp only
    rw [if_neg (lt_irrefl d.g1), if_neg (lt_irrefl d.g1), if_pos hlt]
    have hc : ((d.g1 : ℚ) : ℝ) ≤ ((x : ℚ) : ℝ) := by exact_mod_cast h
    linarith

theorem v2TermSum_g2_baseline_ge (d : FeatureSet) (x : ℚ) (h : x ≤ d.g1) :
    v2TermSum { d with g2 := x } ≤ v2TermSum { d with g2 := d.g1 } := by
  rcases eq_or_lt_of_le h with heq | hlt
  · rw [heq]
  · unfold v2TermSum
    dsimp only
    rw [if_neg (lt_irrefl d.g1), if_neg (lt_irrefl d.g1),
      if_neg (not_lt_of_gt hlt), if_pos hlt]
    have hc : ((x : ℚ) : ℝ) ≤ ((d.g1 : ℚ) : ℝ) := by exact_mod_cast h
    linarith

/-- C6.  Holding every other feature fixed, raising `g2` above `g1` never
decreases the v2 enhanced predicted score compared with `g2 == g1`, and
lowering `g2` below `g1` never increases it (monotone through the trend
adjustment, the clamp and the rounding). -/
theorem claim_C6_g2_monotone (d : FeatureSet) (x : ℚ) :
    (d.g1 ≤ x →
      (enhancedMLPredictionV2 { d with g2 := d.g1 }).predicted_score ≤
        (enhancedMLPredictionV2 { d with g2 := x }).predicted_score) ∧
    (x ≤ d.g1 →
      (enhancedMLPredictionV2 { d with g2 := x }).predicted_score ≤
        (enhancedMLPredictionV2 { d with g2 := d.g1 }).predicted_score) := by
  constructor
  · intro h
    rw [enhancedMLPredictionV2_score_eq, enhancedMLPredictionV2_score_eq]
    exact round2_mono (max_le_max (le_refl 2)
      (min_le_min (le_refl 20) (v2TermSum_g2_baseline_le d x h)))
  · intro h
    rw [enhancedMLPredictionV2_score_eq, enhancedMLPredictionV2_score_eq]
    exact round2_mono (max_le_max (le_refl 2)
      (min_le_min (le_refl 20) (v2TermSum_g2_baseline_ge d x h)))

/-- Witness for C6 at the default input (`g1 = 10`), against `g2 = 12` and 9. -/
theorem claim_C6_g2_monotone_witness :
    witnessFeatures.g1 ≤ 12 ∧
    (enhancedMLPredictionV2 { witnessFeatures with g2 := witnessFeatures.g1 }).predicted_score ≤
      (enhancedMLPredictionV2 { witnessFeatures with g2 := 12 }).predicted_score ∧
    (9 : ℚ) ≤ witnessFeatures.g1 ∧
    (enhancedMLPredictionV2 { witnessFeatures with g2 := 9 }).predicted_score ≤
      (enhancedMLPredictionV2 { witnessFeatures with g2 := witnessFeatures.g1 }).predicted_score :=
  ⟨by decide, (claim_C6_g2_monotone witnessFeatures 12).1 (by decide),
    by decide, (claim_C6_g2_monotone witnessFeatures 9).2 (by decide)⟩

theorem confV2_antitone {d₁ d₂ : FeatureSet}
    (hpart : d₁.participation_index = d₂.participation_index)
    (hvar : avgVarV2 d₂ ≤ avgVarV2 d₁) : confV2 d₁ ≤ confV2 d₂ := by
  unfold confV2
  rw [hpart]
  apply min_le_min (le_refl 98)
  apply add_le_add_right
  apply max_le_max (le_refl 65)
  linarith

theorem confV6_antitone (realData : Bool) {d₁ d₂ : FeatureSet}
    (hpart : d₁.participation_index = d₂.participation_index)
    (hvar : avgVarV6 realData d₂ ≤ avgVarV6 realData d₁) :
    confV6 realData d₁ ≤ confV6 realData d₂ := by
  unfold confV6
  rw [hpart]
  apply min_le_min (le_refl 99)
  linarith

/-- C7.  The confidence estimate is monotonically non-increasing in the
variance proxy: for two inputs with the same participation index (and, for v6,
the same real-data flag and record), the one with the larger average variance
gets the smaller or equal `confidence_level`, in both the v2 and v6 variants. -/
theorem claim_C7_confidence_antitone (d₁ d₂ : FeatureSet) (u : Bool)
    (sd : Option Student)
    (hpart : d₁.participation_index = d₂.participation_index) :
    (avgVarV2 d₂ ≤ avgVarV2 d₁ →
      (enhancedMLPredictionV2 d₁).confidence_level ≤
        (enhancedMLPredictionV2 d₂).confidence_level) ∧
    (avgVarV6 (u && sd.isSome) d₂ ≤ avgVarV6 (u && sd.isSome) d₁ →
      (enhancedMLPredictionV6 u sd d₁).confidence_level ≤
        (enhancedMLPredictionV6 u sd d₂).confidence_level) := by
  constructor
  · intro hvar
    rw [enhancedMLPredictionV2_conf_eq, enhancedMLPredictionV2_conf_eq]
    have h := round2_mono (confV2_antitone hpart hvar)
    exact_mod_cast h
  · intro hvar
    rw [enhancedMLPredictionV6_conf_eq, enhancedMLPredictionV6_conf_eq]
    have h := round2_mono (confV6_antitone (u && sd.isSome) hpart hvar)
    exact_mod_cast h

/-- High-variance input for the C7 witness (grade jump from 10 to 20). -/
def c7Features : FeatureSet := { witnessFeatures with g2 := 20 }

/-- Witness for C7: the grade-jump input has larger average variance and a
lower-or-equal rounded confidence than the default input, in both variants. -/
theorem claim_C7_confidence_antitone_witness :
    c7Features.participation_index = witnessFeatures.participation_index ∧
    avgVarV2 witnessFeatures ≤ avgVarV2 c7Features ∧
    (enhancedMLPredictionV2 c7Features).confidence_level ≤
      (enhancedMLPredictionV2 witnessFeatures).confidence_level ∧
    avgVarV6 false witnessFeatures ≤ avgVarV6 false c7Features ∧
    (enhancedMLPredictionV6 false none c7Features).confidence_level ≤
      (enhancedMLPredictionV6 false none witnessFeatures).confidence_level := by
  have h2 : avgVarV2 witnessFeatures ≤ avgVarV2 c7Features := by
    unfold avgVarV2 c7Features witnessFeatures
    norm_num [abs_of_nonneg, abs_of_nonpos]
  have h6 : avgVarV6 false witnessFeatures ≤ avgVarV6 false c7Features := by
    unfold avgVarV6 c7Features witnessFeatures
    norm_num [abs_of_nonneg, abs_of_nonpos]
  exact ⟨rfl, h2,
    (claim_C7_confidence_antitone c7Features witnessFeatures false none rfl).1 h2,
    h6,
    (claim_C7_confidence_antitone c7Features witnessFeatures false none rfl).2 h6⟩

/-- A database record whose stored absence count is 0 (a perfect attendance
record), all other fields absent. -/
def c9Student : Student :=
  { age := none, studytime := none, absences := some 0, G1 := none, G2 := none,
    G3 := none, Fedu := none, Medu := none, famrel := none, goout := none,
    Dalc := none, Walc := none, health := none }

/-- Counterexample to C9.  A record storing `absences = 0` does not have its
value preferred: `handleStudentSelect` reads it through `student.absences || 3`,
so the form receives the default 3, not the stored 0. -/
theorem claim_C9_counterexample :
    c9Student.absences = some 0 ∧
    (handleStudentSelectForm c9Student exampleFeatures).absences = 3 ∧
    (3 : ℚ) ≠ 0 := by
  refine ⟨rfl, ?_, by norm_num⟩
  simp [handleStudentSelectForm, c9Student, jsOrQ]

/-- C9 (amended).  `handleStudentSelect` prefers the record's value over the
default for every overlapping field whenever that stored value is nonzero; a
stored 0 (like a missing field) falls back to the documented default.
`attendance_rate` is derived as `max (0, 100 - absences * 3)` (missing
absences counting as 0) and `alcohol_consumption` as the average
`(Dalc + Walc) / 2` whenever that average is nonzero. -/
theorem claim_C9_normalizer_nonzero_preference (st : Student) (prev : FeatureSet)
    (v : ℚ) :
    (st.age = some v → v ≠ 0 → (handleStudentSelectForm st prev).age = v) ∧
    (st.studytime = some v → v ≠ 0 → (handleStudentSelectForm st prev).studytime = v) ∧
    (st.G1 = some v → v ≠ 0 → (handleStudentSelectForm st prev).g1 = v) ∧
    (st.G2 = some v → v ≠ 0 → (handleStudentSelectForm st prev).g2 = v) ∧
    (st.absences = some v → v ≠ 0 → (handleStudentSelectForm st prev).absences = v) ∧
    (st.famrel = some v → v ≠ 0 → (handleStudentSelectForm st prev).family_support = v) ∧
    (st.health = some v → v ≠ 0 → (handleStudentSelectForm st prev).health_score = v) ∧
    (st.goout = some v → v ≠ 0 → (handleStudentSelectForm st prev).social_activity = v) ∧
    ((handleStudentSelectForm st prev).attendance_rate =
      max 0 (100 - jsOrQ st.absences 0 * 3)) ∧
    (∀ a b, st.Dalc = some a → st.Walc = some b → (a + b) / 2 ≠ 0 →
      (handleStudentSelectForm st prev).alcohol_consumption = (a + b) / 2) ∧
    (st.absences = some 0 ∨ st.absences = none →
      (handleStudentSelectForm st prev).absences = 3) := by
  refine ⟨?_, ?_, ?_, ?_, ?_, ?_, ?_, ?_, rfl, ?_, ?_⟩
  · intro h h0; simp [handleStudentSelectForm, jsOrQ, h, h0]
  · intro h h0; simp [handleStudentSelectForm, jsOrQ, h, h0]
  · intro h h0; simp [handleStudentSelectForm, jsOrQ, h, h0]
  · intro h h0; simp [handleStudentSelectForm, jsOrQ, h, h0]
  · intro h h0; simp [handleStudentSelectForm, jsOrQ, h, h0]
  · intro h h0; simp [handleStudentSelectForm, jsOrQ, h, h0]
  · intro h h0; simp [handleStudentSelectForm, jsOrQ, h, h0]
  · intro h h0; simp [handleStudentSelectForm, jsOrQ, h, h0]
  · intro a b ha hb h0
    have e1 : jsOrQ (some a) 0 = a := by unfold jsOrQ; split <;> simp_all
    have e2 : jsOrQ (some b) 0 = b := by unfold jsOrQ; split <;> simp_all
    simp [handleStudentSelectForm, jsOrNum, ha, hb, e1, e2, h0]
  · intro h
    rcases h with h | h <;> simp [handleStudentSelectForm, jsOrQ, h]

/-- A record with every overlapping field stored and nonzero, for the C9
witness. -/
def c9FullStudent : Student :=
  { age := some 17, studytime := some 4, absences := some 6, G1 := some 11,
    G2 := some 13, G3 := some 14, Fedu := some 2, Medu := some 3,
    famrel := some 4, goout := some 2, Dalc := some 1, Walc := some 2,
    health := some 5 }

/-- Witness for C9 (amended) on a fully populated nonzero record. -/
theorem claim_C9_normalizer_nonzero_preference_witness :
    c9FullStudent.age = some 17 ∧ (17 : ℚ) ≠ 0 ∧
    (handleStudentSelectForm c9FullStudent exampleFeatures).age = 17 ∧
    c9FullStudent.absences = some 6 ∧ (6 : ℚ) ≠ 0 ∧
    (handleStudentSelectForm c9FullStudent exampleFeatures).absences = 6 ∧
    c9FullStudent.G2 = some 13 ∧ (13 : ℚ) ≠ 0 ∧
    (handleStudentSelectForm c9FullStudent exampleFeatures).g2 = 13 ∧
    c9FullStudent.Dalc = some 1 ∧ c9FullStudent.Walc = some 2 ∧
    ((1 : ℚ) + 2) / 2 ≠ 0 ∧
    (handleStudentSelectForm c9FullStudent exampleFeatures).alcohol_consumption =
      ((1 : ℚ) + 2) / 2 ∧
    (handleStudentSelectForm c9FullStudent exampleFeatures).attendance_rate =
      max 0 (100 - jsOrQ c9FullStudent.absences 0 * 3) :=
  ⟨rfl, by decide, (claim_C9_normalizer_nonzero_preference c9FullStudent exampleFeatures 17).1
      rfl (by decide),
    rfl, by decide, (claim_C9_normalizer_nonzero_preference c9FullStudent exampleFeatures 6).2.2.2.2.1
      rfl (by decide),
    rfl, by decide, (claim_C9_normalizer_nonzero_preference c9FullStudent exampleFeatures 13).2.2.2.1
      rfl (by decide),
    rfl, rfl, by norm_num,
    (claim_C9_normalizer_nonzero_preference c9FullStudent exampleFeatures 0).2.2.2.2.2.2.2.2.2.1
      1 2 rfl rfl (by norm_num),
    (claim_C9_normalizer_nonzero_preference c9FullStudent exampleFeatures 0).2.2.2.2.2.2.2.2.1⟩
